import Mathlib

/-!
# Verification of the `concopt` atmosphere / flight-condition model

This file gives a shallow embedding, in Lean 4, of the parts of the
`concopt` repository that the specification talks about: the layered
standard-atmosphere model (`src/concopt/atmosphere.py`), the
flight-condition state machine (`src/concopt/condition.py`) and the pure
airspeed-conversion functions (`src/concopt/conditions.py`).

Conventions of the embedding:
* Python floats are embedded as exact rationals (`ℚ`) where only field
  operations and comparisons occur, and as real numbers (`ℝ`) where
  `sqrt` / `exp` / non-integer powers occur.  Overflow and rounding of
  IEEE doubles are not modelled.
* numpy 1-D arrays are embedded as `List`s; a numpy scalar is a
  `List` of length one after `np.atleast_1d`.
* `raise` is embedded by returning a `PyErr` value.  Setters are
  embedded as functions `state → input → state × Option PyErr`; the
  Python code raises before mutating unless noted otherwise in the
  doc comment of the individual definition.
* Dimensioned quantities (`pint`) are embedded by fixing SI base units
  (m, K, Pa, m/s); unit bookkeeping itself is not modelled.
* The data file `data/atmosphere.csv` and the modules
  `concopt/common.py`, `concopt/isentropicflow.py` and
  `concopt/nondimensional.py` are not part of the sources; the
  definitions taken from them are modelled from the spec and say so in
  their doc comments.
-/

namespace Concopt

/-- Kinds of Python exception raised by the embedded code paths
(`TypeError`, `ValueError`, `AttributeError`). -/
inductive PyErr where
  | typeError
  | valueError
  | attributeError
deriving DecidableEq, Repr

/-! ## Physical constants (`src/concopt/constants.py`, `PhysicalConstants`) -/

/-- `PhysicalConstants.g = 9.80665 m/s²`. -/
def g0 : ℚ := 9.80665

/-- `PhysicalConstants.R_star = 287.05287 J/(K·kg)`. -/
def R_star : ℚ := 287.05287

/-- `PhysicalConstants.gamma = 1.4`. -/
def gammaAir : ℚ := 7/5

/-- `PhysicalConstants.R_earth = 6356.766 km` (in metres). -/
def R_earth : ℚ := 6356766

/-! ## The layer table (`AtmosphereConstants`)

`constants.py` loads the table from `data/atmosphere.csv`, which is not
among the sources. -/

namespace Atmo

/-- Modelled from the spec: the `base_altitude` column of the missing
`data/atmosphere.csv` layer table — "fixed ordered sequence of 8 rows
… monotonically increasing in base_altitude, covering 0 to 80 km (the
top entry is a sentinel boundary with no further lapse)".  Values are
the ICAO / US-1976 standard bases, in metres. -/
def H_base : List ℚ := [0, 11000, 20000, 32000, 47000, 51000, 71000, 80000]

/-- Modelled from the spec: the `base_temperature` column of the missing
layer table (ICAO standard values, in kelvin). -/
def T_base : List ℚ :=
  [288.15, 216.65, 216.65, 228.65, 270.65, 270.65, 214.65, 196.65]

/-- Modelled from the spec: the `lapse_rate` column of the missing layer
table (ICAO standard values, in K/m; the sentinel row has no further
lapse). -/
def T_grad : List ℚ :=
  [-65/10000, 0, 1/1000, 28/10000, 0, -28/10000, -2/1000, 0]

/-- Modelled from the spec: the `base_pressure` column of the missing
layer table (ICAO standard values, in pascal). -/
def p_base : List ℚ :=
  [101325, 22632.06, 5474.889, 868.0187, 110.9063, 66.93887,
   3.956420, 0.8862722]

end Atmo

/-- `Atmosphere.__init__`: `self._H_min = Atmo.H_base[0]`. -/
def H_min : ℚ := Atmo.H_base.headD 0

/-- `Atmosphere.__init__`: `self._H_max = Atmo.H_base[-1]`. -/
def H_max : ℚ := Atmo.H_base.getLastD 0

/-! ## Layer lookup (`atmosphere.py`, `Layer._layer_idx`) -/

/-- Auxiliary loop of `Layer._layer_idx`: scan consecutive pairs of the
base-altitude table, returning the first index `i` (counting from the
accumulator) with `H_base[i] ≤ H < H_base[i+1]`. -/
def layerIdxAux (i : Nat) : List ℚ → ℚ → Except PyErr Nat
  | [], _ => .error .valueError
  | [_], _ => .error .valueError
  | a :: b :: rest, H =>
      if a ≤ H ∧ H < b then .ok i else layerIdxAux (i + 1) (b :: rest) H

/-- `Layer._layer_idx` (atmosphere.py:62-78): iterate over
`Atmo.H_base[:-1]`, return the first `idx` with
`H_base[idx] ≤ H < H_base[idx+1]`, else `raise ValueError("H out of
bounds.")`. -/
def layer_idx (H : ℚ) : Except PyErr Nat := layerIdxAux 0 Atmo.H_base H

/-- `Layer.__init__` (atmosphere.py:36-56): compute the layer index of
every altitude in the array, propagating the `ValueError` of
`_layer_idx` at the first altitude that has no layer. -/
def layersOf : List ℚ → Except PyErr (List Nat)
  | [] => .ok []
  | h :: rest =>
    match layer_idx h with
    | .error e => .error e
    | .ok i =>
      match layersOf rest with
      | .error e => .error e
      | .ok is => .ok (i :: is)

/-! ## Altitude input and the atmosphere state -/

/-- Input to the altitude setter before `np.atleast_1d`: a scalar, a
1-D array, or an array of two or more dimensions (represented by its
nesting). -/
inductive NpVal where
  | scalar (x : ℚ)
  | arr1 (xs : List ℚ)
  | arr2 (xss : List (List ℚ))
deriving DecidableEq, Repr

/-- `np.atleast_1d`: a scalar becomes a length-1 array; arrays are
unchanged. -/
def atleast1d : NpVal → NpVal
  | .scalar x => .arr1 [x]
  | v => v

/-- `len(np.shape(·))` after `atleast_1d`. -/
def ndim : NpVal → Nat
  | .scalar _ => 0
  | .arr1 _ => 1
  | .arr2 _ => 2

/-- The mutable state of an `Atmosphere` object: the stored altitude
array `_H` (always 1-D), the per-altitude layer indices (the `Layer`
object), and the user overrides `_T` and `_p` (`None` = standard
day). -/
structure AtmState where
  H : List ℚ
  layers : List Nat
  T_ov : Option (List ℚ)
  p_ov : Option (List ℚ)
deriving DecidableEq, Repr

/-- The state of a freshly allocated `Atmosphere` object before its
altitude is assigned. -/
def atmEmpty : AtmState := ⟨[], [], none, none⟩

/-- `Atmosphere.H` setter (atmosphere.py:442-474): `np.atleast_1d` the
input, `raise TypeError` when it has more than one dimension, `raise
ValueError` when any element is below `H_min` or above `H_max`, then
store the array, construct the `Layer` data (whose `_layer_idx` raises
`ValueError` when some element has no layer), and clear the `_T` and
`_p` overrides.

The Python assigns `self._H` before constructing the `Layer`, so a
`Layer` failure leaves a partially updated object behind; no caller in
the sources observes that partial state, and the embedding returns the
prior state together with the error. -/
def atmSetH (s : AtmState) (Hin : NpVal) : AtmState × Option PyErr :=
  match atleast1d Hin with
  | .scalar _ => (s, some .typeError)
  | .arr2 _ => (s, some .typeError)
  | .arr1 H =>
    if H.any (fun x => decide (x < H_min)) ∨ H.any (fun x => decide (H_max < x))
    then (s, some .valueError)
    else
      match layersOf H with
      | .error e => (s, some e)
      | .ok ls => (⟨H, ls, none, none⟩, none)

/-- `Atmosphere.T` getter (atmosphere.py:514-526): the override if one
was set, else `T_base + T_grad * (H - H_base)` per altitude. -/
def atmT (s : AtmState) : List ℚ :=
  match s.T_ov with
  | some T => T
  | none =>
      (s.H.zip s.layers).map fun hi =>
        Atmo.T_base.getD hi.2 0 +
          Atmo.T_grad.getD hi.2 0 * (hi.1 - Atmo.H_base.getD hi.2 0)

/-- `Atmosphere.T` setter (atmosphere.py:528-534): `raise
AttributeError` when the input size differs from the altitude size
(before any mutation), else store the override exactly. -/
def atmSetT (s : AtmState) (T : List ℚ) : AtmState × Option PyErr :=
  if T.length ≠ s.H.length then (s, some .attributeError)
  else ({ s with T_ov := some T }, none)

/-- `Atmosphere.p` setter (atmosphere.py:506-512): `raise
AttributeError` when the input size differs from the altitude size
(before any mutation), else store the override exactly. -/
def atmSetP (s : AtmState) (p : List ℚ) : AtmState × Option PyErr :=
  if p.length ≠ s.H.length then (s, some .attributeError)
  else ({ s with p_ov := some p }, none)

/-- `Atmosphere.p` getter (atmosphere.py:476-504): the override if one
was set; otherwise, per altitude, with `T` the (override-aware)
temperature:
`p_base * exp(-g0/(R*T) * (H - H_base))` when the lapse rate is zero,
`p_base * (1 + (T_grad/T_base)*(H - H_base)) ^ ((1/T_grad)*(-g0/R))`
otherwise. -/
noncomputable def atmP (s : AtmState) : List ℝ :=
  match s.p_ov with
  | some p => p.map (fun x => (x : ℝ))
  | none =>
      ((s.H.zip s.layers).zip (atmT s)).map fun hiT =>
        let H : ℝ := hiT.1.1
        let i := hiT.1.2
        let T : ℝ := hiT.2
        let Hb : ℝ := Atmo.H_base.getD i 0
        let Tb : ℝ := Atmo.T_base.getD i 0
        let grad : ℝ := Atmo.T_grad.getD i 0
        let pb : ℝ := Atmo.p_base.getD i 0
        if grad = 0 then
          pb * Real.exp (-(g0 : ℝ) / ((R_star : ℝ) * T) * (H - Hb))
        else
          pb * (1 + grad / Tb * (H - Hb)) ^ ((1 / grad) * (-(g0 : ℝ) / (R_star : ℝ)))

/-- `Atmosphere.a` getter (atmosphere.py:545-552):
`a = sqrt(gamma * R_star * T)` per altitude. -/
noncomputable def atmA (s : AtmState) : List ℝ :=
  (atmT s).map fun T => Real.sqrt ((gammaAir : ℝ) * (R_star : ℝ) * (T : ℝ))

/-- `Atmosphere.rho` getter (atmosphere.py:536-543):
`rho = p / (R_star * T)` per altitude. -/
noncomputable def atmRho (s : AtmState) : List ℝ :=
  ((atmP s).zip (atmT s)).map fun pT => pT.1 / ((R_star : ℝ) * (pT.2 : ℝ))

/-! ## Pure airspeed functions (`src/concopt/conditions.py`)

`conditions.py` reads `gamma`, `p_0` and `a_0` from `src/constants.py`,
which takes them from the standard-atmosphere constants; numerically
`gamma = 1.4`, `p_0 = 101325 Pa`, `a_0 = sqrt(gamma·R·288.15) m/s`. -/

/-- `calc_ground_speed` (conditions.py:55-80): law of cosines,
`gs = sqrt(ws² + tas² + 2·ws·tas·cos(wind_dir − heading))`, the angle
in radians. -/
noncomputable def calc_ground_speed (wind_speed wind_dir tas heading : ℝ) : ℝ :=
  Real.sqrt (wind_speed ^ 2 + tas ^ 2 +
    2 * wind_speed * tas * Real.cos (wind_dir - heading))

/-- `saint_venant_formula` (conditions.py:83-102):
`(1 + (γ−1)/2·m²)^(γ/(γ−1)) − 1`. -/
noncomputable def saint_venant_formula (m : ℝ) : ℝ :=
  (1 + ((gammaAir : ℝ) - 1) / 2 * m ^ 2) ^ ((gammaAir : ℝ) / ((gammaAir : ℝ) - 1)) - 1

/-- `lord_rayleigh_formula` (conditions.py:105-136): with
`expn = 1/(γ−1)`, `scaler = ((γ+1)/2)^((γ+1)·expn) · (2·expn)^expn` and
`mscaler = 2γ·expn`, the value is
`scaler·m^mscaler / (mscaler·m² − 1)^expn − 1`.  The Python promotes
numeric warnings to errors and returns `None` when one fires; for the
exact-real embedding that is the case `mscaler·m² − 1 ≤ 0` (negative or
zero base raised to the fractional power `expn`, or division by zero);
`m^mscaler` itself has the integer exponent 7 and never warns. -/
noncomputable def lord_rayleigh_formula (m : ℝ) : Option ℝ :=
  if 2 * (gammaAir : ℝ) * (1 / ((gammaAir : ℝ) - 1)) * m ^ 2 - 1 ≤ 0 then none
  else some (
    (((gammaAir : ℝ) + 1) / 2) ^ (((gammaAir : ℝ) + 1) * (1 / ((gammaAir : ℝ) - 1))) *
      (2 * (1 / ((gammaAir : ℝ) - 1))) ^ (1 / ((gammaAir : ℝ) - 1)) *
      m ^ (2 * (gammaAir : ℝ) * (1 / ((gammaAir : ℝ) - 1))) /
      (2 * (gammaAir : ℝ) * (1 / ((gammaAir : ℝ) - 1)) * m ^ 2 - 1) ^
        (1 / ((gammaAir : ℝ) - 1)) - 1)

/-- `calc_pressure_ratio` (conditions.py:139-163):
`sv if sv < 0.893 else lr` — the Saint-Venant value when it is below
the cutoff, otherwise whatever `lord_rayleigh_formula` produced
(possibly `None`). -/
noncomputable def calc_pressure_ratio (m : ℝ) : Option ℝ :=
  if saint_venant_formula m < 0.893 then some (saint_venant_formula m)
  else lord_rayleigh_formula m

/-- `pressure_ratio_error` (conditions.py:198-216):
`abs(pressure_ratio_from_mach(mach) − cas_pr)`.  When
`calc_pressure_ratio` produced `None` the Python subtraction would
raise a `TypeError`; the embedding propagates `none`. -/
noncomputable def pressure_ratio_error (mach cas_pr : ℝ) : Option ℝ :=
  (calc_pressure_ratio mach).map fun pr => |pr - cas_pr|

/-! ## Isentropic-flow helpers used by `condition.py`

`condition.py` imports `IsentropicFlow` and `NonDimensional` from
`concopt/isentropicflow.py` and `concopt/nondimensional.py`, which are
not among the sources. -/

/-- Modelled from the spec: `IsentropicFlow.p0_by_p` from the missing
`concopt/isentropicflow.py` — spec 4.2:
`p0/p = (1 + (γ−1)/2·M²)^(γ/(γ−1))`. -/
noncomputable def p0_by_p (M : ℝ) : ℝ :=
  (1 + ((gammaAir : ℝ) - 1) / 2 * M ^ 2) ^ ((gammaAir : ℝ) / ((gammaAir : ℝ) - 1))

/-- Modelled from the spec: `IsentropicFlow.M_from_p0_by_p` from the
missing `concopt/isentropicflow.py`, the inverse of `p0_by_p`:
`M = sqrt(2/(γ−1)·((p0/p)^((γ−1)/γ) − 1))`. -/
noncomputable def M_from_p0_by_p (r : ℝ) : ℝ :=
  Real.sqrt (2 / ((gammaAir : ℝ) - 1) * (r ^ (((gammaAir : ℝ) - 1) / (gammaAir : ℝ)) - 1))

/-- Modelled from the spec: `IsentropicFlow.T0_by_T` from the missing
`concopt/isentropicflow.py` — spec 4.2: `T0/T = 1 + (γ−1)/2·M²`. -/
noncomputable def T0_by_T (M : ℝ) : ℝ := 1 + ((gammaAir : ℝ) - 1) / 2 * M ^ 2

/-- `FlightCondition._impact_pressure` (condition.py:530-545):
`q_c = p0_by_p(M)·p − p`. -/
noncomputable def impact_pressure (M p : ℝ) : ℝ := p0_by_p M * p - p

/-! ## The flight-condition state (`src/concopt/condition.py`) -/

/-- `self._holdconst_vel_var`: which velocity representation is held
constant across altitude changes. -/
inductive HoldVar where
  | M
  | TAS
  | CAS
deriving DecidableEq, Repr

/-- `self._atm0 = Atmosphere(H=0*unit('kft'))`: the fixed sea-level
reference atmosphere. -/
def atm0 : AtmState := ⟨[0], [0], none, none⟩

/-- Sea-level speed of sound `self._atm0.a`. -/
noncomputable def a_sl : ℝ := (atmA atm0).headD 0

/-- Sea-level static pressure `self._atm0.p`. -/
noncomputable def p_sl : ℝ := (atmP atm0).headD 0

/-- The mutable state of a `FlightCondition` object: the inherited
atmosphere state plus the stored velocity arrays `_M`, `_TAS`, `_CAS`,
`_EAS`, `_q_c` and the held-constant tag. -/
structure FCState where
  atm : AtmState
  M : List ℝ
  TAS : List ℝ
  CAS : List ℝ
  EAS : List ℝ
  q_c : List ℝ
  hold : HoldVar

/-- `FlightCondition._reshape_arr1_like_arr2` (condition.py:351-364):
broadcast `xs` to the size of `ys` when `ys` is non-singular and `xs`
is singular; otherwise leave `xs` alone. -/
def reshapeLike (xs : List α) (ys : List β) : List α :=
  match xs with
  | [x] => if ys.length > 1 then List.replicate ys.length x else [x]
  | _ => xs

/-- `FlightCondition._check_compatible_array_size` (condition.py:291-321):
two arrays are compatible unless both are non-singular and of unequal
size. -/
def checkCompatibleArraySize (xs : List α) (ys : List β) : Bool :=
  if xs.length > 1 ∧ ys.length > 1 ∧ xs.length ≠ ys.length then false else true

/-- `FlightCondition._process_input_velocity` (condition.py:439-454)
reassigns `self._H = _reshape_arr1_like_arr2(self._H, vel_arr)` without
touching the `Layer` object; the singleton layer data then broadcasts
against the enlarged altitude array in every getter, which is
element-wise identical to replicating the layer row, so the embedding
replicates it.  A stale singleton `_T`/`_p` override would likewise
broadcast; no code path in the sources reaches that corner and the
embedding leaves the overrides unchanged. -/
def reshapeAtm (a : AtmState) (vlen : Nat) : AtmState :=
  if a.H.length = 1 ∧ vlen > 1 then
    { a with H := List.replicate vlen (a.H.headD 0),
             layers := List.replicate vlen (a.layers.headD 0) }
  else a

/-- `FlightCondition._TAS_from_M` (condition.py:561-573):
`TAS = M · a(H)` element-wise. -/
noncomputable def TAS_from_M (a : AtmState) (M : List ℝ) : List ℝ :=
  List.zipWith (· * ·) M (atmA a)

/-- `FlightCondition._M_from_TAS` (condition.py:547-559):
`M = TAS / a(H)` element-wise. -/
noncomputable def M_from_TAS (a : AtmState) (TAS : List ℝ) : List ℝ :=
  List.zipWith (· / ·) TAS (atmA a)

/-- `FlightCondition._q_c_from_M` (condition.py:630-643):
`q_c = _impact_pressure(M, p(H))` element-wise. -/
noncomputable def q_c_from_M (a : AtmState) (M : List ℝ) : List ℝ :=
  List.zipWith (fun m p => impact_pressure m p) M (atmP a)

/-- `FlightCondition._CAS_from_q_c` (condition.py:593-611): at sea-level
standard conditions, `M = M_from_p0_by_p((q_c + p_sl)/p_sl)` and
`CAS = M · a_sl`. -/
noncomputable def CAS_from_q_c (q_c : List ℝ) : List ℝ :=
  q_c.map fun q => M_from_p0_by_p ((q + p_sl) / p_sl) * a_sl

/-- `FlightCondition._q_c_from_CAS` (condition.py:575-591): at sea-level
standard conditions, `M_ = CAS / a_sl` and
`q_c = _impact_pressure(M_, p_sl)`. -/
noncomputable def q_c_from_CAS (CAS : List ℝ) : List ℝ :=
  CAS.map fun c => impact_pressure (c / a_sl) p_sl

/-- `FlightCondition._M_from_q_c` (condition.py:613-628):
`M = M_from_p0_by_p((q_c + p(H))/p(H))` element-wise. -/
noncomputable def M_from_q_c (a : AtmState) (q_c : List ℝ) : List ℝ :=
  List.zipWith (fun q p => M_from_p0_by_p ((q + p) / p)) q_c (atmP a)

/-- Modelled from the spec: `FlightCondition._EAS_from_TAS`, called by
the `TAS` and `CAS` setters but defined in none of the source files —
per the glossary, EAS differs from TAS by the density correction,
`EAS = TAS · sqrt(ρ/ρ₀)` with `ρ₀ = 1.225 kg/m³`. -/
noncomputable def EAS_from_TAS (a : AtmState) (TAS : List ℝ) : List ℝ :=
  List.zipWith (fun t r => t * Real.sqrt (r / 1.225)) TAS (atmRho a)

/-- `FlightCondition.M` setter (condition.py:665-677): preprocess the
input (broadcast a singleton to the altitude size), size-check it
against `_H` (`AttributeError` — raised after `self._M` was already
assigned, hence the committed `M` field in the error case), reshape
`_H` to the velocity size, then recompute `_TAS`, `_q_c`, `_CAS` and
mark `M` as the held quantity.  No Mach-range validation happens
here. -/
noncomputable def fcSetM (s : FCState) (Min : List ℝ) : FCState × Option PyErr :=
  let M := reshapeLike Min s.atm.H
  if checkCompatibleArraySize M s.atm.H = false then
    ({ s with M := M }, some .attributeError)
  else
    let atm := reshapeAtm s.atm M.length
    let TAS := TAS_from_M atm M
    let q_c := q_c_from_M atm M
    let CAS := CAS_from_q_c q_c
    ({ s with atm := atm, M := M, TAS := TAS, q_c := q_c, CAS := CAS,
              hold := .M }, none)

/-- `FlightCondition.TAS` setter (condition.py:684-697): preprocess and
size-check the input, reshape `_H`, then recompute `_M` (the source
passes the raw argument to `_M_from_TAS`; numpy broadcasting makes that
element-wise identical to using the preprocessed array), `_EAS`,
`_q_c`, `_CAS`, and mark `TAS` as held. -/
noncomputable def fcSetTAS (s : FCState) (TASin : List ℝ) : FCState × Option PyErr :=
  let TAS := reshapeLike TASin s.atm.H
  if checkCompatibleArraySize TAS s.atm.H = false then
    ({ s with TAS := TAS }, some .attributeError)
  else
    let atm := reshapeAtm s.atm TAS.length
    let M := M_from_TAS atm TAS
    let EAS := EAS_from_TAS atm TAS
    let q_c := q_c_from_M atm M
    let CAS := CAS_from_q_c q_c
    ({ s with atm := atm, M := M, TAS := TAS, EAS := EAS, q_c := q_c,
              CAS := CAS, hold := .TAS }, none)

/-- `FlightCondition.CAS` setter (condition.py:704-717): preprocess and
size-check the input, reshape `_H`, then recompute `_q_c` (sea-level
referenced), `_M`, `_TAS`, `_EAS`, and mark `CAS` as held. -/
noncomputable def fcSetCAS (s : FCState) (CASin : List ℝ) : FCState × Option PyErr :=
  let CAS := reshapeLike CASin s.atm.H
  if checkCompatibleArraySize CAS s.atm.H = false then
    ({ s with CAS := CAS }, some .attributeError)
  else
    let atm := reshapeAtm s.atm CAS.length
    let q_c := q_c_from_CAS CAS
    let M := M_from_q_c atm q_c
    let TAS := TAS_from_M atm M
    let EAS := EAS_from_TAS atm TAS
    ({ s with atm := atm, M := M, TAS := TAS, EAS := EAS, q_c := q_c,
              CAS := CAS, hold := .CAS }, none)

/-- `FlightCondition.H` setter (condition.py:409-434): run the
`Atmosphere` altitude setter (bounds, layer lookup, override clearing),
then — since `_M` exists on every constructed object — check the new
altitude size against `_M`.  When compatible, re-set the held velocity
quantity (broadcast to the new altitude size), which recomputes all
derived quantities; when incompatible, `_check_compatible_array_size`
only issues a warning and the recompute block is skipped, leaving the
stored velocity quantities untouched. -/
noncomputable def fcSetH (s : FCState) (Hin : NpVal) : FCState × Option PyErr :=
  match atmSetH s.atm Hin with
  | (_, some e) => (s, some e)
  | (atm1, none) =>
    let s1 : FCState := { s with atm := atm1 }
    if checkCompatibleArraySize atm1.H s.M then
      match s.hold with
      | .M => fcSetM s1 (reshapeLike s.M atm1.H)
      | .TAS => fcSetTAS s1 (reshapeLike s.TAS atm1.H)
      | .CAS => fcSetCAS s1 (reshapeLike s.CAS atm1.H)
    else (s1, none)

/-- `FlightCondition.__init__` (condition.py:108-175): initialise the
atmosphere at the input altitude, default the held tag to `CAS`, assign
the one input velocity (Mach 0 when none is given), and only then check
`0 ≤ M ≤ 3` on the stored Mach array, raising `ValueError` when it is
violated. -/
noncomputable def mkFC (Hin : NpVal) (M TAS CAS : Option (List ℝ)) :
    Except PyErr FCState :=
  match atmSetH atmEmpty Hin with
  | (_, some e) => .error e
  | (atm1, none) =>
    let s0 : FCState :=
      { atm := atm1, M := [], TAS := [], CAS := [], EAS := [], q_c := [],
        hold := .CAS }
    let r :=
      match M, TAS, CAS with
      | some Min, _, _ => fcSetM s0 Min
      | none, some TASin, _ => fcSetTAS s0 TASin
      | none, none, some CASin => fcSetCAS s0 CASin
      | none, none, none => fcSetM s0 [0]
    match r with
    | (_, some e) => .error e
    | (s1, none) =>
      if (∃ m ∈ s1.M, m < 0) ∨ (∃ m ∈ s1.M, 3 < m) then .error .valueError
      else .ok s1

/-- `FlightCondition.T` setter (condition.py:748-755): size-check the
input against the altitude array (`AttributeError`), then store
`self._T = T + 200*unit('delta_degC')` — the input plus 200 kelvin —
and re-run the Mach assignment `self.M = self.M` to refresh the
derived quantities. -/
noncomputable def fcSetT (s : FCState) (T : List ℚ) : FCState × Option PyErr :=
  if T.length ≠ s.atm.H.length then (s, some .attributeError)
  else
    let atm1 := { s.atm with T_ov := some (T.map (· + 200)) }
    fcSetM { s with atm := atm1 } s.M

/-! ## Properties of the layer lookup -/

/-- A successful layer lookup returns an index `i` with
`H_base[i] ≤ H < H_base[i+1]`. -/
lemma layer_idx_spec {H : ℚ} {i : ℕ} (h : layer_idx H = .ok i) :
    i + 1 < Atmo.H_base.length ∧
      Atmo.H_base.getD i 0 ≤ H ∧ H < Atmo.H_base.getD (i + 1) 0 := by
  simp only [layer_idx, Atmo.H_base, layerIdxAux] at h
  split_ifs at h with h1 h2 h3 h4 h5 h6 h7 <;>
    simp only [Except.ok.injEq] at h <;> subst h <;>
    simp_all [Atmo.H_base]

/-- A successful layer lookup implies the altitude is within the table
bounds. -/
lemma layer_idx_bounds {H : ℚ} {i : ℕ} (h : layer_idx H = .ok i) :
    (0 : ℚ) ≤ H ∧ H < 80000 := by
  obtain ⟨hlen, hlo, hhi⟩ := layer_idx_spec h
  have hlen8 : i < 7 := by
    simp only [Atmo.H_base, List.length_cons, List.length_nil] at hlen
    omega
  interval_cases i <;> simp_all [Atmo.H_base] <;>
    (first | (constructor <;> linarith) | linarith)

/-- Setting a single in-bounds altitude on a fresh atmosphere stores
exactly that altitude and its layer index and clears the overrides. -/
lemma atmSetH_scalar_ok {H : ℚ} {i : ℕ} (hi : layer_idx H = .ok i) :
    atmSetH atmEmpty (.scalar H) = (⟨[H], [i], none, none⟩, none) := by
  obtain ⟨hlo, hhi⟩ := layer_idx_bounds hi
  have hmin : H_min = 0 := rfl
  have hmax : H_max = 80000 := rfl
  have hcond : ¬ ((([H].any fun x => decide (x < H_min)) = true) ∨
      (([H].any fun x => decide (H_max < x)) = true)) := by
    simp only [hmin, hmax, List.any_cons, List.any_nil, Bool.or_false,
      decide_eq_true_eq]
    push_neg
    exact ⟨hlo, le_of_lt hhi⟩
  simp only [atmSetH, atleast1d]
  rw [if_neg hcond]
  simp [layersOf, hi]

/-! ## Claims C3, C8, C9, C10 -/

/-- C3: the boundary behaviour of the altitude setter.  `H = H_min`
succeeds; anything below `H_min` or above `H_max` fails with
`ValueError`; but `H = H_max` itself, which the claim says "does not
fail", is rejected: the setter's own bounds check accepts it and the
subsequent `Layer._layer_idx` lookup then raises
`ValueError("H out of bounds.")`, because every interval test is
`H_base[i] ≤ H < H_base[i+1]` and no layer's half-open interval
contains the top base altitude. -/
theorem spec_C3 :
    (atmSetH atmEmpty (.scalar H_min)).2 = none ∧
    (atmSetH atmEmpty (.scalar (-1))).2 = some PyErr.valueError ∧
    (atmSetH atmEmpty (.scalar 80001)).2 = some PyErr.valueError ∧
    layer_idx H_max = .error PyErr.valueError ∧
    (atmSetH atmEmpty (.scalar H_max)).2 = some PyErr.valueError :=
  ⟨rfl, rfl, rfl, rfl, rfl⟩

/-- C8: the ground-speed computation is the law-of-cosines formula, and
with zero wind speed it returns exactly the true airspeed, for any
heading and wind direction. -/
theorem spec_C8 (ws wd tas hdg : ℝ) :
    calc_ground_speed ws wd tas hdg =
      Real.sqrt (ws ^ 2 + tas ^ 2 + 2 * ws * tas * Real.cos (wd - hdg)) ∧
    (0 ≤ tas → calc_ground_speed 0 wd tas hdg = tas) := by
  refine ⟨rfl, fun ht => ?_⟩
  have harg : (0 : ℝ) ^ 2 + tas ^ 2 + 2 * 0 * tas * Real.cos (wd - hdg) = tas ^ 2 := by
    ring
  rw [calc_ground_speed, harg, Real.sqrt_sq ht]

/-- Witness for C8 at wind speed 0, true airspeed 250. -/
theorem spec_C8_witness : calc_ground_speed 0 1 250 2 = 250 :=
  (spec_C8 0 1 250 2).2 (by norm_num)

/-- C9: setting a temperature or pressure override whose size differs
from the altitude size fails immediately with `AttributeError` and
leaves the stored state unchanged. -/
theorem spec_C9 (s : AtmState) (T p : List ℚ)
    (hT : T.length ≠ s.H.length) (hp : p.length ≠ s.H.length) :
    atmSetT s T = (s, some PyErr.attributeError) ∧
    atmSetP s p = (s, some PyErr.attributeError) := by
  constructor <;> simp [atmSetT, atmSetP, hT, hp]

/-- Witness for C9: a 2-element temperature override and an empty
pressure override against a 1-element altitude array. -/
theorem spec_C9_witness :
    atmSetT ⟨[0], [0], none, none⟩ [1, 2] =
      (⟨[0], [0], none, none⟩, some PyErr.attributeError) ∧
    atmSetP ⟨[0], [0], none, none⟩ [] =
      (⟨[0], [0], none, none⟩, some PyErr.attributeError) :=
  spec_C9 ⟨[0], [0], none, none⟩ [1, 2] [] (by decide) (by decide)

/-- C10: the altitude setter stores a scalar as a length-1 array
whenever it succeeds, and rejects input of more than one dimension with
`TypeError` before modifying any stored state. -/
theorem spec_C10 (s : AtmState) (x : ℚ) (xss : List (List ℚ)) :
    ((atmSetH s (.scalar x)).2 = none → (atmSetH s (.scalar x)).1.H = [x]) ∧
    atmSetH s (.arr2 xss) = (s, some PyErr.typeError) := by
  constructor
  · intro hok
    simp only [atmSetH, atleast1d] at hok ⊢
    split_ifs at hok ⊢ with hc
    rcases hls : layersOf [x] with e | ls
    · rw [hls] at hok
      simp at hok
    · rfl
  · rfl

/-- Witness for C10 at the scalar altitude 1000 m and a 2-D input. -/
theorem spec_C10_witness :
    (atmSetH atmEmpty (.scalar 1000)).1.H = [1000] ∧
    atmSetH atmEmpty (.arr2 [[0]]) = (atmEmpty, some PyErr.typeError) :=
  ⟨(spec_C10 atmEmpty 1000 [[0]]).1 (by decide),
   (spec_C10 atmEmpty 1000 [[0]]).2⟩


/-! ## Claims C4 and C6: the pressure-ratio dispatch -/

/-- With `γ = 1.4` the Saint-Venant formula is `(1 + m²/5)^(7/2) − 1`. -/
lemma sv_eq (m : ℝ) :
    saint_venant_formula m = (1 + m ^ 2 / 5) ^ ((7:ℝ)/2) - 1 := by
  have h1 : ((gammaAir : ℚ) : ℝ) = 7/5 := by norm_num [gammaAir]
  rw [saint_venant_formula, h1]
  have hb : 1 + ((7:ℝ)/5 - 1) / 2 * m ^ 2 = 1 + m ^ 2 / 5 := by ring
  have he : ((7:ℝ)/5) / ((7:ℝ)/5 - 1) = 7/2 := by norm_num
  rw [hb, he]

/-- Squaring a 7/2 real power gives the seventh power. -/
lemma rpow_72_sq {x : ℝ} (hx : 0 ≤ x) : (x ^ ((7:ℝ)/2)) ^ (2:ℕ) = x ^ (7:ℕ) := by
  rw [← Real.rpow_natCast (x ^ ((7:ℝ)/2)) 2, ← Real.rpow_mul hx]
  norm_num
  rw [show ((7:ℝ)) = ((7:ℕ):ℝ) by norm_num, Real.rpow_natCast]

/-- Compare a 7/2 power with a bound by comparing integer powers. -/
lemma rpow_72_lt_iff {x c : ℝ} (hx : 0 ≤ x) (hc : 0 ≤ c) :
    x ^ ((7:ℝ)/2) < c ↔ x ^ (7:ℕ) < c ^ (2:ℕ) := by
  rw [← rpow_72_sq hx]
  exact (pow_lt_pow_iff_left₀ (Real.rpow_nonneg hx _) hc (by norm_num)).symm

/-- An equation on a 7/2 power squares to one on integer powers. -/
lemma rpow_72_eq_sq {x c : ℝ} (hx : 0 ≤ x) (h : x ^ ((7:ℝ)/2) = c) :
    x ^ (7:ℕ) = c ^ (2:ℕ) := by
  rw [← rpow_72_sq hx, h]

/-- Wherever the Rayleigh denominator `7m² − 1` is nonpositive, the
Saint-Venant pressure ratio is below the `0.893` cutoff (it is at most
`(36/35)^(7/2) − 1 ≈ 0.104`). -/
lemma sv_lt_cutoff_of_denom_nonpos {m : ℝ} (h : 7 * m ^ 2 - 1 ≤ 0) :
    saint_venant_formula m < 0.893 := by
  rw [sv_eq]
  have hb : (0:ℝ) ≤ 1 + m ^ 2 / 5 := by positivity
  have hle : 1 + m ^ 2 / 5 ≤ 36/35 := by nlinarith
  have h1 : (1 + m ^ 2 / 5) ^ ((7:ℝ)/2) ≤ (36/35 : ℝ) ^ ((7:ℝ)/2) :=
    Real.rpow_le_rpow hb hle (by norm_num)
  have h2 : (36/35 : ℝ) ^ ((7:ℝ)/2) < 1.893 := by
    rw [rpow_72_lt_iff (by norm_num) (by norm_num)]
    norm_num
  linarith

/-- The Rayleigh guard expression evaluates to `7m² − 1`. -/
lemma lr_cond (m : ℝ) :
    2 * (gammaAir:ℝ) * (1/((gammaAir:ℝ) - 1)) * m ^ 2 - 1 = 7 * m ^ 2 - 1 := by
  have h1 : ((gammaAir : ℚ) : ℝ) = 7/5 := by norm_num [gammaAir]
  rw [h1]
  ring

/-- `lord_rayleigh_formula` is undefined exactly when `7m² − 1 ≤ 0`. -/
lemma lr_eq_none_iff (m : ℝ) : lord_rayleigh_formula m = none ↔ 7 * m ^ 2 - 1 ≤ 0 := by
  rw [lord_rayleigh_formula, lr_cond]
  split_ifs with h
  · exact iff_of_true rfl h
  · exact iff_of_false (by simp) h

/-- When the Saint-Venant ratio reaches the cutoff, the Rayleigh
denominator is positive. -/
lemma denom_pos_of_cutoff_le {m : ℝ} (h : ¬ saint_venant_formula m < 0.893) :
    0 < 7 * m ^ 2 - 1 := by
  by_contra hc
  push_neg at hc
  exact h (sv_lt_cutoff_of_denom_nonpos hc)

/-- No rational speed ratio hits the `0.893` cutoff exactly: that would
force `(10·(1 + m²/5))^7 = 35834490`, and `35834490` lies strictly
between `12^7` and `13^7`, so it has no rational seventh root. -/
lemma sv_ne_cutoff (m : ℚ) : saint_venant_formula (m:ℝ) ≠ 0.893 := by
  intro h
  rw [sv_eq] at h
  have hx : (0:ℝ) ≤ 1 + (m:ℝ) ^ 2 / 5 := by positivity
  have h1 : (1 + (m:ℝ) ^ 2 / 5) ^ ((7:ℝ)/2) = 1.893 := by linarith
  have h2 := rpow_72_eq_sq hx h1
  have hcast : ((1 + m ^ 2 / 5 : ℚ) : ℝ) = 1 + (m:ℝ) ^ 2 / 5 := by push_cast; ring
  have hc2 : ((1893/1000 : ℚ) : ℝ) = (1.893 : ℝ) := by norm_num
  rw [← hcast, ← hc2] at h2
  have h3 : (1 + m ^ 2 / 5 : ℚ) ^ (7:ℕ) = (1893/1000 : ℚ) ^ (2:ℕ) := by exact_mod_cast h2
  set r : ℚ := 10 * (1 + m ^ 2 / 5) with hr
  have h4 : r ^ (7:ℕ) = (35834490 : ℚ) := by
    rw [hr, mul_pow, h3]
    norm_num
  have hden : r.den ^ 7 = 1 := by
    have hd := congrArg Rat.den h4
    rw [Rat.den_pow] at hd
    simpa using hd
  have hden1 : r.den = 1 := by
    rcases Nat.lt_or_ge r.den 2 with hlt | hge
    · have hnz := r.den_nz
      omega
    · have := Nat.pow_le_pow_left hge 7
      rw [hden] at this
      norm_num at this
  have hint : (r.num : ℚ) = r := (Rat.den_eq_one_iff r).mp hden1
  have h5 : r.num ^ (7:ℕ) = (35834490 : ℤ) := by
    have h6 : ((r.num : ℚ)) ^ (7:ℕ) = (35834490 : ℚ) := by rw [hint]; exact h4
    exact_mod_cast h6
  have hposr : 0 < r := by rw [hr]; positivity
  have hpos : 0 < r.num := Rat.num_pos.mpr hposr
  rcases le_or_lt r.num 12 with h12 | h13
  · have hle12 : r.num ^ 7 ≤ 12 ^ 7 := pow_le_pow_left₀ hpos.le h12 7
    rw [h5] at hle12
    norm_num at hle12
  · have h13ge : (13:ℤ) ≤ r.num := h13
    have hge13 : (13:ℤ) ^ 7 ≤ r.num ^ 7 := pow_le_pow_left₀ (by norm_num) h13ge 7
    rw [h5] at hge13
    norm_num at hge13


/-- Compare a bound with a 7/2 power by comparing integer powers. -/
lemma rpow_72_gt_iff {x c : ℝ} (hx : 0 ≤ x) (hc : 0 ≤ c) :
    c < x ^ ((7:ℝ)/2) ↔ c ^ (2:ℕ) < x ^ (7:ℕ) := by
  rw [← rpow_72_sq hx]
  exact (pow_lt_pow_iff_left₀ hc (Real.rpow_nonneg hx _) (by norm_num)).symm

/-- C4 (amended): a Mach candidate at which the Rayleigh formula is
numerically undefined is not excluded from the search — the dispatch in
`calc_pressure_ratio` necessarily assigns it the Saint-Venant value
(which is below the 0.893 cutoff whenever the Rayleigh denominator is
nonpositive) — and the pressure-ratio objective is total, so no
undefined value ever propagates out of it; `calc_mach_from_cas` then
returns the minimizer's `res.x` unconditionally, with no
convergence check and no ConvergenceError path. -/
theorem spec_C4 (m : ℝ) :
    (lord_rayleigh_formula m = none →
      calc_pressure_ratio m = some (saint_venant_formula m)) ∧
    (calc_pressure_ratio m).isSome = true := by
  constructor
  · intro hnone
    have hcond := (lr_eq_none_iff m).mp hnone
    have hlt := sv_lt_cutoff_of_denom_nonpos hcond
    rw [calc_pressure_ratio, if_pos hlt]
  · by_cases hlt : saint_venant_formula m < 0.893
    · rw [calc_pressure_ratio, if_pos hlt]
      rfl
    · have hd := denom_pos_of_cutoff_le hlt
      rw [calc_pressure_ratio, if_neg hlt, lord_rayleigh_formula,
        if_neg (show ¬(2 * (gammaAir:ℝ) * (1/((gammaAir:ℝ) - 1)) * m ^ 2 - 1 ≤ 0) from by
          rw [lr_cond]; linarith)]
      rfl

/-- C4 counterexample: at the Mach candidate 0.3 the Rayleigh formula
is undefined (`7·0.3² − 1 < 0`), yet the candidate is not treated as
infeasible or excluded — `calc_pressure_ratio` evaluates it to the
Saint-Venant value, which the solver uses like any other objective
value. -/
theorem spec_C4_cex :
    lord_rayleigh_formula (0.3:ℝ) = none ∧
    calc_pressure_ratio (0.3:ℝ) = some (saint_venant_formula (0.3:ℝ)) := by
  have hnone : lord_rayleigh_formula (0.3:ℝ) = none :=
    (lr_eq_none_iff 0.3).mpr (by norm_num)
  refine ⟨hnone, ?_⟩
  have hlt := sv_lt_cutoff_of_denom_nonpos (m := (0.3:ℝ)) (by norm_num)
  rw [calc_pressure_ratio, if_pos hlt]

/-- Witness for C4 at the Mach candidate 0.25. -/
theorem spec_C4_witness :
    calc_pressure_ratio (0.25:ℝ) = some (saint_venant_formula (0.25:ℝ)) ∧
    (calc_pressure_ratio (0.25:ℝ)).isSome = true :=
  ⟨(spec_C4 0.25).1 ((lr_eq_none_iff 0.25).mpr (by norm_num)), (spec_C4 0.25).2⟩

/-- C6: for every (float, hence rational) speed-ratio input, the
pressure-ratio computation returns the Saint-Venant closed-form value
whenever that subsonic pressure ratio is ≤ 0.893, and the Rayleigh
closed-form value (spelled as in the spec) whenever it exceeds 0.893;
no rational input hits the cutoff exactly, so the code's strict
comparison agrees with the claim's non-strict split. -/
theorem spec_C6 (m : ℚ) :
    (saint_venant_formula (m:ℝ) ≤ 0.893 →
      calc_pressure_ratio (m:ℝ) = some (saint_venant_formula (m:ℝ))) ∧
    (0.893 < saint_venant_formula (m:ℝ) →
      calc_pressure_ratio (m:ℝ) = some
        ((((gammaAir:ℝ) + 1) / 2) ^ (((gammaAir:ℝ) + 1) / ((gammaAir:ℝ) - 1)) *
          (2 / ((gammaAir:ℝ) - 1)) ^ (1 / ((gammaAir:ℝ) - 1)) *
          (m:ℝ) ^ (2 * (gammaAir:ℝ) / ((gammaAir:ℝ) - 1)) /
          (2 * (gammaAir:ℝ) / ((gammaAir:ℝ) - 1) * (m:ℝ) ^ 2 - 1) ^
            (1 / ((gammaAir:ℝ) - 1)) - 1)) := by
  constructor
  · intro hle
    have hlt := lt_of_le_of_ne hle (sv_ne_cutoff m)
    rw [calc_pressure_ratio, if_pos hlt]
  · intro hgt
    have hnlt : ¬ saint_venant_formula (m:ℝ) < 0.893 := by linarith
    have hd := denom_pos_of_cutoff_le hnlt
    rw [calc_pressure_ratio, if_neg hnlt, lord_rayleigh_formula,
      if_neg (show ¬(2 * (gammaAir:ℝ) * (1/((gammaAir:ℝ) - 1)) * (m:ℝ) ^ 2 - 1 ≤ 0) from by
        rw [lr_cond]; linarith)]
    congr 1
    rw [mul_one_div 2 ((gammaAir:ℝ) - 1)]
    rw [show ((gammaAir:ℝ) + 1) * (1 / ((gammaAir:ℝ) - 1)) = ((gammaAir:ℝ) + 1) / ((gammaAir:ℝ) - 1) from by ring]
    rw [show 2 * (gammaAir:ℝ) * (1 / ((gammaAir:ℝ) - 1)) = 2 * (gammaAir:ℝ) / ((gammaAir:ℝ) - 1) from by ring]


/-- Witness for C6 at the subsonic speed ratio 1/4 and the supersonic
speed ratio 2. -/
theorem spec_C6_witness :
    calc_pressure_ratio ((1/4 : ℚ) : ℝ) = some (saint_venant_formula ((1/4 : ℚ) : ℝ)) ∧
    calc_pressure_ratio ((2 : ℚ) : ℝ) = some
      ((((gammaAir:ℝ) + 1) / 2) ^ (((gammaAir:ℝ) + 1) / ((gammaAir:ℝ) - 1)) *
        (2 / ((gammaAir:ℝ) - 1)) ^ (1 / ((gammaAir:ℝ) - 1)) *
        ((2:ℚ):ℝ) ^ (2 * (gammaAir:ℝ) / ((gammaAir:ℝ) - 1)) /
        (2 * (gammaAir:ℝ) / ((gammaAir:ℝ) - 1) * ((2:ℚ):ℝ) ^ 2 - 1) ^
          (1 / ((gammaAir:ℝ) - 1)) - 1) :=
  ⟨(spec_C6 (1/4)).1 (by
      refine le_of_lt (sv_lt_cutoff_of_denom_nonpos ?_)
      push_cast
      norm_num),
   (spec_C6 2).2 (by
      have h2 : ((2:ℚ):ℝ) = (2:ℝ) := by norm_num
      rw [h2, sv_eq]
      have hx : (1 + (2:ℝ) ^ 2 / 5) = 9/5 := by norm_num
      rw [hx]
      have h3 := (rpow_72_gt_iff (x := (9/5:ℝ)) (c := (1.893:ℝ))
        (by norm_num) (by norm_num)).mpr (by norm_num)
      linarith)⟩



/-! ## Claim C5: the closed-form layer equations -/

/-- C5: for every in-bounds altitude (one whose layer lookup succeeds)
with no overrides set, the freshly constructed atmosphere stores that
altitude with its layer index `i`, its temperature is
`T_base[i] + lapse_rate[i]·(H − H_base[i])`, and its pressure is
`p_base[i]·exp(−g0/(R·T)·(H − H_base[i]))` when `lapse_rate[i] = 0`
and `p_base[i]·(1 + lapse_rate[i]/T_base[i]·(H − H_base[i]))^(−g0/(R·lapse_rate[i]))`
when `lapse_rate[i] ≠ 0`. -/
theorem spec_C5 (H : ℚ) (i : ℕ) (hi : layer_idx H = .ok i) :
    atmSetH atmEmpty (.scalar H) = (⟨[H], [i], none, none⟩, none) ∧
    atmT ⟨[H], [i], none, none⟩ =
      [Atmo.T_base.getD i 0 + Atmo.T_grad.getD i 0 * (H - Atmo.H_base.getD i 0)] ∧
    (Atmo.T_grad.getD i 0 = 0 →
      atmP ⟨[H], [i], none, none⟩ =
        [(Atmo.p_base.getD i 0 : ℝ) *
          Real.exp (-(g0 : ℝ) / ((R_star : ℝ) *
              ((Atmo.T_base.getD i 0 + Atmo.T_grad.getD i 0 * (H - Atmo.H_base.getD i 0) : ℚ) : ℝ)) *
            ((H : ℝ) - (Atmo.H_base.getD i 0 : ℝ)))]) ∧
    (Atmo.T_grad.getD i 0 ≠ 0 →
      atmP ⟨[H], [i], none, none⟩ =
        [(Atmo.p_base.getD i 0 : ℝ) *
          (1 + (Atmo.T_grad.getD i 0 : ℝ) / (Atmo.T_base.getD i 0 : ℝ) *
            ((H : ℝ) - (Atmo.H_base.getD i 0 : ℝ))) ^
            (-(g0 : ℝ) / ((R_star : ℝ) * (Atmo.T_grad.getD i 0 : ℝ)))]) := by
  refine ⟨atmSetH_scalar_ok hi, by simp [atmT], ?_, ?_⟩
  · intro hz
    have hz' : (Atmo.T_grad.getD i 0 : ℝ) = 0 := by
      rw [hz]; norm_num
    simp only [atmP, atmT, List.zip_cons_cons, List.zip_nil_right,
      List.zip_nil_left, List.map_cons, List.map_nil]
    rw [if_pos hz']
  · intro hnz
    have hnz' : (Atmo.T_grad.getD i 0 : ℝ) ≠ 0 := by
      simpa using hnz
    simp only [atmP, atmT, List.zip_cons_cons, List.zip_nil_right,
      List.zip_nil_left, List.map_cons, List.map_nil]
    rw [if_neg hnz']
    have he : (1 / (Atmo.T_grad.getD i 0 : ℝ)) * (-(g0 : ℝ) / (R_star : ℝ)) =
        -(g0 : ℝ) / ((R_star : ℝ) * (Atmo.T_grad.getD i 0 : ℝ)) := by
      field_simp
      ring
    rw [he]


/-- Witness for C5 at 15000 m (layer 1, zero lapse rate) and 5000 m
(layer 0, lapse rate −6.5 K/km). -/
theorem spec_C5_witness :
    atmT ⟨[15000], [1], none, none⟩ =
      [Atmo.T_base.getD 1 0 + Atmo.T_grad.getD 1 0 * (15000 - Atmo.H_base.getD 1 0)] ∧
    atmP ⟨[15000], [1], none, none⟩ =
      [(Atmo.p_base.getD 1 0 : ℝ) *
        Real.exp (-(g0 : ℝ) / ((R_star : ℝ) *
            ((Atmo.T_base.getD 1 0 + Atmo.T_grad.getD 1 0 * (15000 - Atmo.H_base.getD 1 0) : ℚ) : ℝ)) *
          (((15000 : ℚ) : ℝ) - (Atmo.H_base.getD 1 0 : ℝ)))] ∧
    atmP ⟨[5000], [0], none, none⟩ =
      [(Atmo.p_base.getD 0 0 : ℝ) *
        (1 + (Atmo.T_grad.getD 0 0 : ℝ) / (Atmo.T_base.getD 0 0 : ℝ) *
          (((5000 : ℚ) : ℝ) - (Atmo.H_base.getD 0 0 : ℝ))) ^
          (-(g0 : ℝ) / ((R_star : ℝ) * (Atmo.T_grad.getD 0 0 : ℝ)))] :=
  ⟨(spec_C5 15000 1 rfl).2.1,
   (spec_C5 15000 1 rfl).2.2.1 rfl,
   (spec_C5 5000 0 rfl).2.2.2 (by norm_num [Atmo.T_grad])⟩


/-! ## Claims C1, C2 and C7: the flight-condition state machine -/


/-- The `Atmosphere.T` setter (as opposed to the `FlightCondition`
override of it) stores the override exactly, and reads return it
unchanged. -/
lemma atmSetT_stores_exact (s : AtmState) (T : List ℚ)
    (h : T.length = s.H.length) :
    atmSetT s T = ({ s with T_ov := some T }, none) ∧
    atmT { s with T_ov := some T } = T := by
  constructor
  · simp [atmSetT, h]
  · simp [atmT]

/-- A freshly initialised flight-condition state at sea level, before
any velocity has been assigned (`_holdconst_vel_var` defaults to
`CAS`). -/
noncomputable def fcBase : FCState :=
  { atm := ⟨[0], [0], none, none⟩, M := [], TAS := [], CAS := [], EAS := [],
    q_c := [], hold := .CAS }

/-- A concrete flight condition at sea level with Mach 1/2 held. -/
noncomputable def fc0 : FCState := (fcSetM fcBase [1/2]).1

/-- C1: evaluating the code at the failing input.  Setting the
temperature override 288.15 K on a sea-level `FlightCondition` raises
no error, but the stored (and subsequently read) temperature is
`288.15 + 200 = 488.15` kelvin, not the caller-supplied value: the
`FlightCondition.T` setter stores
`T + 200*unit('delta_degC')` instead of `T`.  (The inherited
`Atmosphere.T` setter stores the value exactly; see
`atmSetT_stores_exact`.) -/
theorem spec_C1 :
    (fcSetT fc0 [288.15]).2 = none ∧
    atmT (fcSetT fc0 [288.15]).1.atm = [288.15 + 200] ∧
    (288.15 + 200 : ℚ) = 488.15 :=
  ⟨rfl, rfl, by norm_num⟩

/-- C2 counterexample: setting `M = 3.0001` on an existing
`FlightCondition` through the `M` setter raises no error and commits
the out-of-range Mach number — the setter performs no Mach-range
validation at all. -/
theorem spec_C2_cex :
    ((3.0001 : ℝ) > 3) ∧
    (fcSetM fc0 [(3.0001 : ℝ)]).2 = none ∧
    (fcSetM fc0 [(3.0001 : ℝ)]).1.M = [(3.0001 : ℝ)] :=
  ⟨by norm_num, rfl, rfl⟩

/-- C2 (amended): Mach-range validation happens only in the
`FlightCondition` constructor, and there only after the velocity
assignment has already stored the new state: construction at sea level
succeeds exactly when `0 ≤ M ≤ 3` (so `M = 3.0` is accepted and
`M = 3.0001` rejected with `ValueError`), while the `M` setter on an
existing object never raises for size-compatible input and always
commits the new Mach array. -/
theorem spec_C2 (Mv : ℝ) :
    ((mkFC (.scalar 0) (some [Mv]) none none).isOk = true ↔ (0 ≤ Mv ∧ Mv ≤ 3)) ∧
    (∀ (s : FCState) (Min : List ℝ),
      checkCompatibleArraySize (reshapeLike Min s.atm.H) s.atm.H = true →
      (fcSetM s Min).2 = none ∧ (fcSetM s Min).1.M = reshapeLike Min s.atm.H) := by
  constructor
  · have hstep : mkFC (.scalar 0) (some [Mv]) none none =
        (if (∃ m ∈ [Mv], m < 0) ∨ (∃ m ∈ [Mv], 3 < m) then
          Except.error PyErr.valueError
        else Except.ok ((fcSetM fcBase [Mv]).1)) := rfl
    rw [hstep]
    split_ifs with hcond
    · refine iff_of_false (by decide) ?_
      simp only [List.mem_singleton] at hcond
      rcases hcond with ⟨m, hm, hlt⟩ | ⟨m, hm, hgt⟩
      · subst hm
        intro hk
        linarith [hk.1]
      · subst hm
        intro hk
        linarith [hk.2]
    · refine iff_of_true rfl ?_
      push_neg at hcond
      obtain ⟨h1, h2⟩ := hcond
      exact ⟨h1 Mv (by simp), h2 Mv (by simp)⟩
  · intro s Min hc
    simp only [fcSetM]
    rw [hc]
    simp

/-- Witness for C2: constructing at `M = 3` succeeds, and the `M`
setter accepts `M = 2` without error. -/
theorem spec_C2_witness :
    (mkFC (.scalar 0) (some [(3:ℝ)]) none none).isOk = true ∧
    (fcSetM fc0 [(2:ℝ)]).2 = none :=
  ⟨(spec_C2 3).1.mpr (by norm_num), ((spec_C2 2).2 fc0 [(2:ℝ)] rfl).1⟩

/-- Array-size compatibility is symmetric. -/
lemma checkCompat_symm {α β : Type} (xs : List α) (ys : List β) :
    checkCompatibleArraySize xs ys = checkCompatibleArraySize ys xs := by
  unfold checkCompatibleArraySize
  split_ifs with h1 h2 <;> simp_all

/-- Array-size compatibility only depends on lengths. -/
lemma checkCompat_congr {α β γ : Type} (H : List γ) (v₁ : List α) (v₂ : List β)
    (h : v₁.length = v₂.length) :
    checkCompatibleArraySize H v₁ = checkCompatibleArraySize H v₂ := by
  unfold checkCompatibleArraySize
  rw [h]

/-- Reshaping is the identity on arrays already of the target size. -/
lemma reshapeLike_eq_self_of_length {α β : Type} {xs : List α} {ys : List β}
    (h : xs.length = ys.length) : reshapeLike xs ys = xs := by
  rcases xs with _ | ⟨x, _ | ⟨y, rest⟩⟩
  · rfl
  · have h1 : ys.length = 1 := by simpa using h.symm
    simp only [reshapeLike]
    rw [if_neg (by omega)]
  · rfl

/-- A velocity array compatible with the altitude array stays
compatible after broadcasting, and broadcasting is idempotent. -/
lemma compat_reshape {α γ : Type} {v : List α} {H : List γ}
    (h : checkCompatibleArraySize H v = true) :
    checkCompatibleArraySize (reshapeLike v H) H = true ∧
    reshapeLike (reshapeLike v H) H = reshapeLike v H := by
  rcases v with _ | ⟨x, _ | ⟨y, rest⟩⟩
  · exact ⟨rfl, rfl⟩
  · by_cases hH : H.length > 1
    · constructor
      · simp [reshapeLike, hH, checkCompatibleArraySize]
      · rw [show reshapeLike [x] H = List.replicate H.length x from by
          simp [reshapeLike, hH]]
        exact reshapeLike_eq_self_of_length (by simp)
    · constructor
      · simp [reshapeLike, hH, checkCompatibleArraySize]
      · simp [reshapeLike, hH]
  · constructor
    · rw [show reshapeLike (x :: y :: rest) H = x :: y :: rest from rfl,
        checkCompat_symm]
      exact h
    · rfl

/-- On size-compatible input the `M` setter commits without error and
produces exactly the success branch of `fcSetM`: the reshaped altitude
state, the broadcast Mach array, and `TAS`, `q_c`, `CAS` recomputed
from that Mach at that altitude, with `M` marked held. -/
lemma fcSetM_ok (s : FCState) (Vin : List ℝ)
    (hc : checkCompatibleArraySize (reshapeLike Vin s.atm.H) s.atm.H = true) :
    fcSetM s Vin =
      ({ s with
          atm := reshapeAtm s.atm (reshapeLike Vin s.atm.H).length,
          M := reshapeLike Vin s.atm.H,
          TAS := TAS_from_M (reshapeAtm s.atm (reshapeLike Vin s.atm.H).length)
            (reshapeLike Vin s.atm.H),
          q_c := q_c_from_M (reshapeAtm s.atm (reshapeLike Vin s.atm.H).length)
            (reshapeLike Vin s.atm.H),
          CAS := CAS_from_q_c
            (q_c_from_M (reshapeAtm s.atm (reshapeLike Vin s.atm.H).length)
              (reshapeLike Vin s.atm.H)),
          hold := .M }, none) := by
  simp only [fcSetM]
  rw [hc]
  simp

/-- On size-compatible input the `TAS` setter commits without error and
produces exactly the success branch of `fcSetTAS`: the reshaped
altitude state, the broadcast TAS array, and `M`, `EAS`, `q_c`, `CAS`
recomputed from that TAS at that altitude, with `TAS` marked held. -/
lemma fcSetTAS_ok (s : FCState) (Vin : List ℝ)
    (hc : checkCompatibleArraySize (reshapeLike Vin s.atm.H) s.atm.H = true) :
    fcSetTAS s Vin =
      ({ s with
          atm := reshapeAtm s.atm (reshapeLike Vin s.atm.H).length,
          M := M_from_TAS (reshapeAtm s.atm (reshapeLike Vin s.atm.H).length)
            (reshapeLike Vin s.atm.H),
          TAS := reshapeLike Vin s.atm.H,
          EAS := EAS_from_TAS (reshapeAtm s.atm (reshapeLike Vin s.atm.H).length)
            (reshapeLike Vin s.atm.H),
          q_c := q_c_from_M (reshapeAtm s.atm (reshapeLike Vin s.atm.H).length)
            (M_from_TAS (reshapeAtm s.atm (reshapeLike Vin s.atm.H).length)
              (reshapeLike Vin s.atm.H)),
          CAS := CAS_from_q_c
            (q_c_from_M (reshapeAtm s.atm (reshapeLike Vin s.atm.H).length)
              (M_from_TAS (reshapeAtm s.atm (reshapeLike Vin s.atm.H).length)
                (reshapeLike Vin s.atm.H))),
          hold := .TAS }, none) := by
  simp only [fcSetTAS]
  rw [hc]
  simp

/-- On size-compatible input the `CAS` setter commits without error and
produces exactly the success branch of `fcSetCAS`: the reshaped
altitude state, the broadcast CAS array, and `q_c`, `M`, `TAS`, `EAS`
recomputed from that CAS at that altitude, with `CAS` marked held. -/
lemma fcSetCAS_ok (s : FCState) (Vin : List ℝ)
    (hc : checkCompatibleArraySize (reshapeLike Vin s.atm.H) s.atm.H = true) :
    fcSetCAS s Vin =
      ({ s with
          atm := reshapeAtm s.atm (reshapeLike Vin s.atm.H).length,
          M := M_from_q_c (reshapeAtm s.atm (reshapeLike Vin s.atm.H).length)
            (q_c_from_CAS (reshapeLike Vin s.atm.H)),
          TAS := TAS_from_M (reshapeAtm s.atm (reshapeLike Vin s.atm.H).length)
            (M_from_q_c (reshapeAtm s.atm (reshapeLike Vin s.atm.H).length)
              (q_c_from_CAS (reshapeLike Vin s.atm.H))),
          EAS := EAS_from_TAS (reshapeAtm s.atm (reshapeLike Vin s.atm.H).length)
            (TAS_from_M (reshapeAtm s.atm (reshapeLike Vin s.atm.H).length)
              (M_from_q_c (reshapeAtm s.atm (reshapeLike Vin s.atm.H).length)
                (q_c_from_CAS (reshapeLike Vin s.atm.H)))),
          q_c := q_c_from_CAS (reshapeLike Vin s.atm.H),
          CAS := reshapeLike Vin s.atm.H,
          hold := .CAS }, none) := by
  simp only [fcSetCAS]
  rw [hc]
  simp

/-- C7 (amended): reassigning altitude on a state whose velocity
arrays have a common length (the invariant every setter maintains)
re-sets the held quantity — `M`, `TAS` or `CAS` per the hold tag —
broadcast with its numeric value unchanged to the new altitude size,
and recomputes the other velocity representations and the derived
pressure quantities from that held value at the new altitude (the
resulting state's `TAS`, `q_c`, `CAS`, `M`, `EAS` fields equal the
corresponding derivation functions applied to the resulting altitude
state and held array); but when the new altitude size is incompatible
with the stored velocity size, the code only issues a warning: no
error is raised, the new altitude is committed, and the velocity
recompute is skipped entirely, leaving the stored velocity quantities
stale. -/
theorem spec_C7 (s : FCState) (Hl : List ℚ) (atm' : AtmState)
    (hset : atmSetH s.atm (.arr1 Hl) = (atm', none))
    (hTAS : s.TAS.length = s.M.length) (hCAS : s.CAS.length = s.M.length) :
    (checkCompatibleArraySize atm'.H s.M = false →
      fcSetH s (.arr1 Hl) = ({ s with atm := atm' }, none)) ∧
    (checkCompatibleArraySize atm'.H s.M = true →
      (s.hold = .M →
        (fcSetH s (.arr1 Hl)).2 = none ∧
        (fcSetH s (.arr1 Hl)).1.M = reshapeLike s.M atm'.H ∧
        (fcSetH s (.arr1 Hl)).1.atm =
          reshapeAtm atm' (reshapeLike s.M atm'.H).length ∧
        (fcSetH s (.arr1 Hl)).1.TAS =
          TAS_from_M (fcSetH s (.arr1 Hl)).1.atm (fcSetH s (.arr1 Hl)).1.M ∧
        (fcSetH s (.arr1 Hl)).1.q_c =
          q_c_from_M (fcSetH s (.arr1 Hl)).1.atm (fcSetH s (.arr1 Hl)).1.M ∧
        (fcSetH s (.arr1 Hl)).1.CAS =
          CAS_from_q_c (fcSetH s (.arr1 Hl)).1.q_c ∧
        (fcSetH s (.arr1 Hl)).1.hold = .M) ∧
      (s.hold = .TAS →
        (fcSetH s (.arr1 Hl)).2 = none ∧
        (fcSetH s (.arr1 Hl)).1.TAS = reshapeLike s.TAS atm'.H ∧
        (fcSetH s (.arr1 Hl)).1.atm =
          reshapeAtm atm' (reshapeLike s.TAS atm'.H).length ∧
        (fcSetH s (.arr1 Hl)).1.M =
          M_from_TAS (fcSetH s (.arr1 Hl)).1.atm (fcSetH s (.arr1 Hl)).1.TAS ∧
        (fcSetH s (.arr1 Hl)).1.EAS =
          EAS_from_TAS (fcSetH s (.arr1 Hl)).1.atm (fcSetH s (.arr1 Hl)).1.TAS ∧
        (fcSetH s (.arr1 Hl)).1.q_c =
          q_c_from_M (fcSetH s (.arr1 Hl)).1.atm (fcSetH s (.arr1 Hl)).1.M ∧
        (fcSetH s (.arr1 Hl)).1.CAS =
          CAS_from_q_c (fcSetH s (.arr1 Hl)).1.q_c ∧
        (fcSetH s (.arr1 Hl)).1.hold = .TAS) ∧
      (s.hold = .CAS →
        (fcSetH s (.arr1 Hl)).2 = none ∧
        (fcSetH s (.arr1 Hl)).1.CAS = reshapeLike s.CAS atm'.H ∧
        (fcSetH s (.arr1 Hl)).1.atm =
          reshapeAtm atm' (reshapeLike s.CAS atm'.H).length ∧
        (fcSetH s (.arr1 Hl)).1.q_c =
          q_c_from_CAS (fcSetH s (.arr1 Hl)).1.CAS ∧
        (fcSetH s (.arr1 Hl)).1.M =
          M_from_q_c (fcSetH s (.arr1 Hl)).1.atm (fcSetH s (.arr1 Hl)).1.q_c ∧
        (fcSetH s (.arr1 Hl)).1.TAS =
          TAS_from_M (fcSetH s (.arr1 Hl)).1.atm (fcSetH s (.arr1 Hl)).1.M ∧
        (fcSetH s (.arr1 Hl)).1.EAS =
          EAS_from_TAS (fcSetH s (.arr1 Hl)).1.atm (fcSetH s (.arr1 Hl)).1.TAS ∧
        (fcSetH s (.arr1 Hl)).1.hold = .CAS)) := by
  obtain ⟨satm, sM, sTAS, sCAS, sEAS, sqc, shold⟩ := s
  simp only at hset hTAS hCAS ⊢
  have hfc : fcSetH ⟨satm, sM, sTAS, sCAS, sEAS, sqc, shold⟩ (.arr1 Hl) =
      (if checkCompatibleArraySize atm'.H sM = true then
        match shold with
        | .M => fcSetM ⟨atm', sM, sTAS, sCAS, sEAS, sqc, shold⟩
            (reshapeLike sM atm'.H)
        | .TAS => fcSetTAS ⟨atm', sM, sTAS, sCAS, sEAS, sqc, shold⟩
            (reshapeLike sTAS atm'.H)
        | .CAS => fcSetCAS ⟨atm', sM, sTAS, sCAS, sEAS, sqc, shold⟩
            (reshapeLike sCAS atm'.H)
      else (⟨atm', sM, sTAS, sCAS, sEAS, sqc, shold⟩, none)) := by
    simp only [fcSetH]
    rw [hset]
  constructor
  · intro hcf
    rw [hfc, if_neg (by simp [hcf])]
  · intro hct
    have hcM : checkCompatibleArraySize
        (reshapeLike (reshapeLike sM atm'.H) atm'.H) atm'.H = true := by
      rw [(compat_reshape hct).2]
      exact (compat_reshape hct).1
    have hctT : checkCompatibleArraySize atm'.H sTAS = true := by
      rw [checkCompat_congr atm'.H sTAS sM hTAS]
      exact hct
    have hctC : checkCompatibleArraySize atm'.H sCAS = true := by
      rw [checkCompat_congr atm'.H sCAS sM hCAS]
      exact hct
    have hcT : checkCompatibleArraySize
        (reshapeLike (reshapeLike sTAS atm'.H) atm'.H) atm'.H = true := by
      rw [(compat_reshape hctT).2]
      exact (compat_reshape hctT).1
    have hcC : checkCompatibleArraySize
        (reshapeLike (reshapeLike sCAS atm'.H) atm'.H) atm'.H = true := by
      rw [(compat_reshape hctC).2]
      exact (compat_reshape hctC).1
    refine ⟨fun hM => ?_, fun hT => ?_, fun hC => ?_⟩
    · subst hM
      have hok := fcSetM_ok ⟨atm', sM, sTAS, sCAS, sEAS, sqc, .M⟩
        (reshapeLike sM atm'.H) hcM
      simp only at hok
      rw [(compat_reshape hct).2] at hok
      rw [hfc, if_pos hct]
      rw [show (match HoldVar.M with
        | HoldVar.M => fcSetM ⟨atm', sM, sTAS, sCAS, sEAS, sqc, .M⟩
            (reshapeLike sM atm'.H)
        | HoldVar.TAS => fcSetTAS ⟨atm', sM, sTAS, sCAS, sEAS, sqc, .M⟩
            (reshapeLike sTAS atm'.H)
        | HoldVar.CAS => fcSetCAS ⟨atm', sM, sTAS, sCAS, sEAS, sqc, .M⟩
            (reshapeLike sCAS atm'.H)) =
          fcSetM ⟨atm', sM, sTAS, sCAS, sEAS, sqc, .M⟩
            (reshapeLike sM atm'.H) from rfl, hok]
      exact ⟨rfl, rfl, rfl, rfl, rfl, rfl, rfl⟩
    · subst hT
      have hok := fcSetTAS_ok ⟨atm', sM, sTAS, sCAS, sEAS, sqc, .TAS⟩
        (reshapeLike sTAS atm'.H) hcT
      simp only at hok
      rw [(compat_reshape hctT).2] at hok
      rw [hfc, if_pos hct]
      rw [show (match HoldVar.TAS with
        | HoldVar.M => fcSetM ⟨atm', sM, sTAS, sCAS, sEAS, sqc, .TAS⟩
            (reshapeLike sM atm'.H)
        | HoldVar.TAS => fcSetTAS ⟨atm', sM, sTAS, sCAS, sEAS, sqc, .TAS⟩
            (reshapeLike sTAS atm'.H)
        | HoldVar.CAS => fcSetCAS ⟨atm', sM, sTAS, sCAS, sEAS, sqc, .TAS⟩
            (reshapeLike sCAS atm'.H)) =
          fcSetTAS ⟨atm', sM, sTAS, sCAS, sEAS, sqc, .TAS⟩
            (reshapeLike sTAS atm'.H) from rfl, hok]
      exact ⟨rfl, rfl, rfl, rfl, rfl, rfl, rfl, rfl⟩
    · subst hC
      have hok := fcSetCAS_ok ⟨atm', sM, sTAS, sCAS, sEAS, sqc, .CAS⟩
        (reshapeLike sCAS atm'.H) hcC
      simp only at hok
      rw [(compat_reshape hctC).2] at hok
      rw [hfc, if_pos hct]
      rw [show (match HoldVar.CAS with
        | HoldVar.M => fcSetM ⟨atm', sM, sTAS, sCAS, sEAS, sqc, .CAS⟩
            (reshapeLike sM atm'.H)
        | HoldVar.TAS => fcSetTAS ⟨atm', sM, sTAS, sCAS, sEAS, sqc, .CAS⟩
            (reshapeLike sTAS atm'.H)
        | HoldVar.CAS => fcSetCAS ⟨atm', sM, sTAS, sCAS, sEAS, sqc, .CAS⟩
            (reshapeLike sCAS atm'.H)) =
          fcSetCAS ⟨atm', sM, sTAS, sCAS, sEAS, sqc, .CAS⟩
            (reshapeLike sCAS atm'.H) from rfl, hok]
      exact ⟨rfl, rfl, rfl, rfl, rfl, rfl, rfl, rfl⟩

/-- A flight condition with a 2-element altitude array and Mach
`[0.5, 0.6]` held. -/
noncomputable def fc2 : FCState :=
  (fcSetM { atm := ⟨[0, 1000], [0, 0], none, none⟩, M := [], TAS := [],
            CAS := [], EAS := [], q_c := [], hold := .CAS } [1/2, 3/5]).1

/-- C7 counterexample: reassigning a 3-element altitude on a state
holding a 2-element Mach array (incompatible non-scalar sizes) does
NOT error — the new altitude is committed, while the Mach and TAS
arrays are left stale at their old 2-element values. -/
theorem spec_C7_cex :
    fc2.M = [(1/2 : ℝ), 3/5] ∧
    (fcSetH fc2 (.arr1 [0, 1000, 2000])).2 = none ∧
    (fcSetH fc2 (.arr1 [0, 1000, 2000])).1.atm.H = [0, 1000, 2000] ∧
    (fcSetH fc2 (.arr1 [0, 1000, 2000])).1.M = [(1/2 : ℝ), 3/5] ∧
    (fcSetH fc2 (.arr1 [0, 1000, 2000])).1.TAS = fc2.TAS :=
  ⟨rfl, rfl, rfl, rfl, rfl⟩

/-- Witness for C7: broadcasting the held scalar Mach 1/2 over a new
two-element altitude array succeeds, and the resulting TAS, impact
pressure and CAS are the derivation functions applied to the new
altitude state and the held Mach array. -/
theorem spec_C7_witness :
    (fcSetH fc0 (.arr1 [0, 5000])).2 = none ∧
    (fcSetH fc0 (.arr1 [0, 5000])).1.M =
      reshapeLike fc0.M (⟨[0, 5000], [0, 0], none, none⟩ : AtmState).H ∧
    (fcSetH fc0 (.arr1 [0, 5000])).1.atm =
      reshapeAtm ⟨[0, 5000], [0, 0], none, none⟩
        (reshapeLike fc0.M (⟨[0, 5000], [0, 0], none, none⟩ : AtmState).H).length ∧
    (fcSetH fc0 (.arr1 [0, 5000])).1.TAS =
      TAS_from_M (fcSetH fc0 (.arr1 [0, 5000])).1.atm
        (fcSetH fc0 (.arr1 [0, 5000])).1.M ∧
    (fcSetH fc0 (.arr1 [0, 5000])).1.q_c =
      q_c_from_M (fcSetH fc0 (.arr1 [0, 5000])).1.atm
        (fcSetH fc0 (.arr1 [0, 5000])).1.M ∧
    (fcSetH fc0 (.arr1 [0, 5000])).1.CAS =
      CAS_from_q_c (fcSetH fc0 (.arr1 [0, 5000])).1.q_c ∧
    (fcSetH fc0 (.arr1 [0, 5000])).1.hold = .M :=
  ((spec_C7 fc0 [0, 5000] ⟨[0, 5000], [0, 0], none, none⟩ rfl rfl rfl).2
    rfl).1 rfl

end Concopt